import Mathlib

/-
Verification of the distributed priority task-queue subsystem of the
rag-chatbot repository (src/queue/task_models.py, task_queue.py,
scheduler.py, worker.py), as a shallow embedding.

Modelling conventions:
- The Redis backing store is modelled as explicit state: the task-blob
  keyspace as a map String to Option Task, each priority list as a Lean
  list (rpush appends, blpop takes the head), each status set as a
  duplicate-free list maintained by sadd/srem, the scheduled sorted set
  as an association list of (member, score).
- Timestamps (datetime values) are modelled as Nat (epoch microseconds);
  datetime.now() is threaded as an explicit `now` argument to the
  operations that read the clock.
- Key TTLs (setex) and pub/sub events are not modelled: blobs persist in
  the map, and blob absence (e.g. after TTL expiry) is modelled directly
  as a state whose blob map returns none for the id.
- Task blobs are stored in Redis as json.dumps(task.to_dict()) and read
  back with Task.from_dict(json.loads(...)); the serialization round
  trip is modelled faithfully by Task.to_dict / Task.from_dict below and
  proved to be the identity, which justifies storing the parsed Task
  value directly in the blob map for the queue operations.
- Python functions that raise to the caller return Except; functions
  that swallow the condition return the unchanged state.
-/

namespace RagQueue

/-- Task execution status (task_models.py, class TaskStatus). -/
inductive TaskStatus where
  | pending
  | running
  | completed
  | failed
  | cancelled
  | retry
deriving DecidableEq

/-- The string value of a status, as used in Redis status-set keys and in
serialized task blobs (TaskStatus enum values). -/
def TaskStatus.value : TaskStatus → String
  | .pending => "pending"
  | .running => "running"
  | .completed => "completed"
  | .failed => "failed"
  | .cancelled => "cancelled"
  | .retry => "retry"

/-- Inverse enum lookup TaskStatus(s); the Python enum constructor raises
ValueError on an unknown value, modelled as none. -/
def TaskStatus.ofValue : String → Option TaskStatus
  | "pending" => some .pending
  | "running" => some .running
  | "completed" => some .completed
  | "failed" => some .failed
  | "cancelled" => some .cancelled
  | "retry" => some .retry
  | _ => none

/-- List of all six statuses (iteration order of the TaskStatus enum). -/
def TaskStatus.all : List TaskStatus :=
  [.pending, .running, .completed, .failed, .cancelled, .retry]

/-- Task priority levels (task_models.py, class TaskPriority). -/
inductive TaskPriority where
  | low
  | normal
  | high
  | urgent
deriving DecidableEq

/-- The integer value of a priority (LOW = 0, NORMAL = 5, HIGH = 10,
URGENT = 15). -/
def TaskPriority.value : TaskPriority → Int
  | .low => 0
  | .normal => 5
  | .high => 10
  | .urgent => 15

/-- Inverse enum lookup TaskPriority(n); raises (none) on unknown values. -/
def TaskPriority.ofValue (n : Int) : Option TaskPriority :=
  if n = 0 then some .low
  else if n = 5 then some .normal
  else if n = 10 then some .high
  else if n = 15 then some .urgent
  else none

/-- Task types (task_models.py, class TaskType). -/
inductive TaskType where
  | agent_query
  | document_index
  | batch_query
  | scheduled
  | webhook
deriving DecidableEq

/-- The string value of a task type. -/
def TaskType.value : TaskType → String
  | .agent_query => "agent_query"
  | .document_index => "document_index"
  | .batch_query => "batch_query"
  | .scheduled => "scheduled"
  | .webhook => "webhook"

/-- Inverse enum lookup TaskType(s); raises (none) on unknown values. -/
def TaskType.ofValue : String → Option TaskType
  | "agent_query" => some .agent_query
  | "document_index" => some .document_index
  | "batch_query" => some .batch_query
  | "scheduled" => some .scheduled
  | "webhook" => some .webhook
  | _ => none

/-- JSON-representable values: the payload/metadata/result dictionaries are
arbitrary JSON-serializable Python values, carried through json.dumps and
json.loads unchanged (numeric values are modelled as integers). -/
inductive Json where
  | null
  | bool (b : Bool)
  | num (n : Int)
  | str (s : String)
  | arr (elems : List Json)
  | obj (fields : List (String × Json))

/-- Base task record (task_models.py, dataclass Task). datetime fields are
epoch-microsecond Nats; payload, metadata and result carry JSON values. -/
structure Task where
  task_id : String
  task_type : TaskType
  payload : List (String × Json)
  priority : TaskPriority
  status : TaskStatus
  max_retries : Nat
  retry_count : Nat
  retry_delay : Nat
  created_at : Nat
  started_at : Option Nat
  completed_at : Option Nat
  worker_id : Option String
  result : Option Json
  error : Option String
  user_id : Option String
  session_id : Option String
  metadata : List (String × Json)

/-- Task execution result (task_models.py, dataclass TaskResult); duration
is wall-clock seconds in the source (a float), modelled as a Nat since no
claim depends on fractional durations. -/
structure TaskResult where
  task_id : String
  status : TaskStatus
  result : Option Json
  error : Option String
  duration : Nat
  worker_id : Option String
  completed_at : Nat
  metadata : List (String × Json)

/-- Decimal digit to character (codepoint 48 is the zero digit), as in the
textual rendering of timestamp components by datetime.isoformat (stdlib). -/
def digitToChar (d : Nat) : Char :=
  Char.ofNat (48 + d)

/-- Character back to decimal digit; none on a non-digit character, matching
the ValueError datetime.fromisoformat raises on malformed input. -/
def charToDigit (c : Char) : Option Nat :=
  if 48 ≤ c.toNat ∧ c.toNat ≤ 57 then some (c.toNat - 48) else none

/-- Parse a run of decimal digit characters; none if any character is not a
digit. -/
def parseDigits : List Char → Option (List Nat)
  | [] => some []
  | c :: cs =>
    match charToDigit c, parseDigits cs with
    | some d, some ds => some (d :: ds)
    | _, _ => none

/-- Model of datetime.isoformat (stdlib): an injective textual rendering of
the timestamp. The source renders the broken-down date as an ISO-8601
string; the model renders the epoch-microsecond count in decimal, which is
the same information losslessly encoded. -/
def isoformat (t : Nat) : String :=
  String.mk ((Nat.digits 10 t).reverse.map digitToChar)

/-- Model of datetime.fromisoformat (stdlib): the exact inverse parse of
isoformat; none on malformed input (the source raises ValueError). -/
def fromisoformat (s : String) : Option Nat :=
  (parseDigits s.data).map (fun ds => Nat.ofDigits 10 ds.reverse)

/-- The dictionary produced by Task.to_dict, with the field types it
actually holds after the json.dumps/json.loads round trip: enums replaced
by their values, datetimes by ISO strings or null. -/
structure TaskDict where
  task_id : String
  task_type : String
  payload : List (String × Json)
  priority : Int
  status : String
  max_retries : Nat
  retry_count : Nat
  retry_delay : Nat
  created_at : String
  started_at : Option String
  completed_at : Option String
  worker_id : Option String
  result : Option Json
  error : Option String
  user_id : Option String
  session_id : Option String
  metadata : List (String × Json)

/-- Task.to_dict (task_models.py): asdict, then enums to their values and
datetimes to ISO strings (None stays None). -/
def Task.to_dict (t : Task) : TaskDict where
  task_id := t.task_id
  task_type := t.task_type.value
  payload := t.payload
  priority := t.priority.value
  status := t.status.value
  max_retries := t.max_retries
  retry_count := t.retry_count
  retry_delay := t.retry_delay
  created_at := isoformat t.created_at
  started_at := t.started_at.map isoformat
  completed_at := t.completed_at.map isoformat
  worker_id := t.worker_id
  result := t.result
  error := t.error
  user_id := t.user_id
  session_id := t.session_id
  metadata := t.metadata

/-- The optional-timestamp branch of Task.from_dict: a missing or None
value is left as None, a string is parsed back to a datetime. -/
def parseOptTime : Option String → Option (Option Nat)
  | none => some none
  | some s => (fromisoformat s).map some

/-- Task.from_dict (task_models.py): converts enum values and ISO strings
back and rebuilds the Task; any enum or datetime parse failure is a raised
ValueError, modelled as none. -/
def Task.from_dict (d : TaskDict) : Option Task :=
  match TaskType.ofValue d.task_type, TaskPriority.ofValue d.priority,
        TaskStatus.ofValue d.status with
  | some tt, some pr, some st =>
    match fromisoformat d.created_at, parseOptTime d.started_at,
          parseOptTime d.completed_at with
    | some ca, some sa, some co =>
      some { task_id := d.task_id
             task_type := tt
             payload := d.payload
             priority := pr
             status := st
             max_retries := d.max_retries
             retry_count := d.retry_count
             retry_delay := d.retry_delay
             created_at := ca
             started_at := sa
             completed_at := co
             worker_id := d.worker_id
             result := d.result
             error := d.error
             user_id := d.user_id
             session_id := d.session_id
             metadata := d.metadata }
    | _, _, _ => none
  | _, _, _ => none

theorem taskStatus_ofValue_value (st : TaskStatus) :
    TaskStatus.ofValue st.value = some st := by
  cases st <;> rfl

theorem taskPriority_ofValue_value (p : TaskPriority) :
    TaskPriority.ofValue p.value = some p := by
  cases p <;> rfl

theorem taskType_ofValue_value (tt : TaskType) :
    TaskType.ofValue tt.value = some tt := by
  cases tt <;> rfl

theorem charToDigit_digitToChar {d : Nat} (h : d < 10) :
    charToDigit (digitToChar d) = some d := by
  interval_cases d <;> decide

theorem parseDigits_map_digitToChar (ds : List Nat) (h : ∀ d ∈ ds, d < 10) :
    parseDigits (ds.map digitToChar) = some ds := by
  induction ds with
  | nil => rfl
  | cons d ds ih =>
    have hd : d < 10 := h d (List.mem_cons_self d ds)
    have hrest : ∀ x ∈ ds, x < 10 := fun x hx => h x (List.mem_cons_of_mem d hx)
    simp [parseDigits, charToDigit_digitToChar hd, ih hrest]

theorem fromisoformat_isoformat (t : Nat) :
    fromisoformat (isoformat t) = some t := by
  have hlt : ∀ d ∈ (Nat.digits 10 t).reverse, d < 10 := by
    intro d hd
    exact Nat.digits_lt_base (by norm_num) (List.mem_reverse.mp hd)
  simp only [fromisoformat, isoformat]
  rw [parseDigits_map_digitToChar _ hlt]
  simp [Nat.ofDigits_digits]

/-- The observable state of one TaskQueue / TaskScheduler instance and its
Redis keyspace (task_queue.py, class TaskQueue; scheduler.py, class
TaskScheduler). available models is_available(): enabled and connected. -/
structure QueueState where
  tasks : String → Option Task
  queues : TaskPriority → List String
  statusSets : TaskStatus → List String
  results : String → Option TaskResult
  scheduled : List (String × Nat)
  available : Bool

/-- Point update of the blob or result keyspace at one key. -/
def updMap {α : Type} (m : String → Option α) (k : String) (v : α) :
    String → Option α :=
  fun x => if x = k then some v else m x

/-- Point update of the priority-list family at one priority. -/
def updQueue (f : TaskPriority → List String) (p : TaskPriority)
    (l : List String) : TaskPriority → List String :=
  fun q => if q = p then l else f q

/-- Point update of the status-set family at one status. -/
def updSet (f : TaskStatus → List String) (st : TaskStatus)
    (l : List String) : TaskStatus → List String :=
  fun x => if x = st then l else f x

/-- Redis SADD on a set modelled as a duplicate-free list. -/
def sadd (l : List String) (x : String) : List String :=
  if x ∈ l then l else l ++ [x]

/-- Redis SREM on a set modelled as a duplicate-free list. -/
def srem (l : List String) (x : String) : List String :=
  l.erase x

/-- Redis LREM with count 0: remove every occurrence of the value. -/
def lremAll (l : List String) (x : String) : List String :=
  l.filter (fun y => decide (y ≠ x))

/-- Redis ZADD: insert the member with the score, or update its score. -/
def zadd (l : List (String × Nat)) (x : String) (score : Nat) :
    List (String × Nat) :=
  match l with
  | [] => [(x, score)]
  | e :: rest => if e.1 = x then (x, score) :: rest else e :: zadd rest x score

/-- Redis ZREM: remove the member. -/
def zrem (l : List (String × Nat)) (x : String) : List (String × Nat) :=
  l.filter (fun e => decide (e.1 ≠ x))

/-- Redis ZRANGEBYSCORE over the scheduled sorted set: the members whose
score lies in the closed interval. -/
def zrangebyscore (l : List (String × Nat)) (lo hi : Nat) : List String :=
  (l.filter (fun e => decide (lo ≤ e.2) && decide (e.2 ≤ hi))).map Prod.fst

/-- TaskQueue.is_available: enabled and the client connected. -/
def is_available (s : QueueState) : Bool :=
  s.available

/-- The state written by TaskQueue.submit_task when the queue is available:
store the blob (setex, TTL not modelled), rpush the id onto its priority
list, sadd the id to the PENDING status set. The task.submitted pub/sub
event carries no state. -/
def submitState (task : Task) (s : QueueState) : QueueState :=
  { s with
    tasks := updMap s.tasks task.task_id task
    queues := updQueue s.queues task.priority
      (s.queues task.priority ++ [task.task_id])
    statusSets := updSet s.statusSets .pending
      (sadd (s.statusSets .pending) task.task_id) }

/-- TaskQueue.submit_task: raises RuntimeError when the queue is not
available, otherwise persists and enqueues the task and returns its id. -/
def submit_task (task : Task) (s : QueueState) :
    Except String (String × QueueState) :=
  if is_available s = false then .error "Task queue not available"
  else .ok (task.task_id, submitState task s)

/-- TaskQueue.get_task: none when unavailable, else the parsed blob for the
id (Task.from_dict of json.loads of the stored string; the proved round
trip lets the model store the Task value itself). -/
def get_task (s : QueueState) (task_id : String) : Option Task :=
  if is_available s = false then none
  else s.tasks task_id

/-- The inner loop of TaskQueue.get_next_task: try each priority list in
the given order; the first blpop that yields an id ends the scan and the
popped id is looked up with get_task on the updated store. -/
def tryPriorities (s : QueueState) : List TaskPriority →
    Option Task × QueueState
  | [] => (none, s)
  | p :: rest =>
    match s.queues p with
    | [] => tryPriorities s rest
    | task_id :: tl =>
      let s1 := { s with queues := updQueue s.queues p tl }
      (get_task s1 task_id, s1)

/-- TaskQueue.get_next_task: none when unavailable; otherwise scans the
priority lists, by default URGENT, HIGH, NORMAL, LOW. -/
def get_next_task (s : QueueState)
    (priorities : Option (List TaskPriority) := none) :
    Option Task × QueueState :=
  if is_available s = false then (none, s)
  else
    tryPriorities s (priorities.getD
      [TaskPriority.urgent, TaskPriority.high, TaskPriority.normal,
       TaskPriority.low])

/-- The task-record mutation done by TaskQueue.update_task_status: set the
new status, overwrite worker_id and error only when truthy arguments were
given, stamp started_at on RUNNING and completed_at on the three terminal
statuses. -/
def apply_status_update (now : Nat) (status : TaskStatus)
    (worker_id error : Option String) (task : Task) : Task :=
  let t1 := { task with
    status := status
    worker_id := match worker_id with
      | some w => some w
      | none => task.worker_id
    error := match error with
      | some e => some e
      | none => task.error }
  if status = .running then { t1 with started_at := some now }
  else if status = .completed ∨ status = .failed ∨ status = .cancelled then
    { t1 with completed_at := some now }
  else t1

/-- The state written by TaskQueue.update_task_status once the task blob
was found: srem the id from the set of the task's stored status, rewrite
the blob, sadd the id to the new status set. -/
def updateStatusState (now : Nat) (task_id : String) (status : TaskStatus)
    (worker_id error : Option String) (task : Task) (s : QueueState) :
    QueueState :=
  let sets1 := updSet s.statusSets task.status
    (srem (s.statusSets task.status) task_id)
  { s with
    statusSets := updSet sets1 status (sadd (sets1 status) task_id)
    tasks := updMap s.tasks task_id
      (apply_status_update now status worker_id error task) }

/-- TaskQueue.update_task_status: silently returns when the queue is
unavailable or the blob is gone. -/
def update_task_status (now : Nat) (task_id : String) (status : TaskStatus)
    (worker_id error : Option String) (s : QueueState) : QueueState :=
  if is_available s = false then s
  else
    match get_task s task_id with
    | none => s
    | some task => updateStatusState now task_id status worker_id error task s

/-- The state written by TaskQueue.save_result when the task blob still
exists: cache the TaskResult under the result key and copy result, error,
status and completed_at into the blob. No status set is touched. -/
def saveResultState (task_id : String) (res : TaskResult) (task : Task)
    (s : QueueState) : QueueState :=
  let t1 : Task := { task with
    result := res.result
    error := res.error
    status := res.status
    completed_at := some res.completed_at }
  { s with
    results := updMap s.results task_id res
    tasks := updMap s.tasks task_id t1 }

/-- TaskQueue.save_result: caches the TaskResult (even when the blob is
gone) and, when the task blob still exists, rewrites the blob too. -/
def save_result (task_id : String) (res : TaskResult) (s : QueueState) :
    QueueState :=
  if is_available s = false then s
  else
    let s1 := { s with results := updMap s.results task_id res }
    match get_task s1 task_id with
    | none => s1
    | some task => saveResultState task_id res task s

/-- TaskQueue.get_result: none when unavailable, else the cached result. -/
def get_result (s : QueueState) (task_id : String) : Option TaskResult :=
  if is_available s = false then none
  else s.results task_id

/-- The list removal done by TaskQueue.cancel_task: lrem(0) the id from
the given priority list. -/
def lremState (task_id : String) (p : TaskPriority) (s : QueueState) :
    QueueState :=
  { s with queues := updQueue s.queues p (lremAll (s.queues p) task_id) }

/-- TaskQueue.cancel_task: only acts on a PENDING task; lrem(0) the id
from its priority list, then update the status to CANCELLED. Any other
stored status, or a missing blob, leaves the state unchanged. -/
def cancel_task (now : Nat) (task_id : String) (s : QueueState) :
    QueueState :=
  if is_available s = false then s
  else
    match get_task s task_id with
    | none => s
    | some task =>
      if task.status = .pending then
        update_task_status now task_id .cancelled none none
          (lremState task_id task.priority s)
      else s

/-- The state written by TaskQueue.retry_task while retry budget remains:
bump retry_count, set status RETRY, clear error, rpush the id back onto
its priority list and rewrite the blob. No status set is touched. -/
def retryState (task : Task) (s : QueueState) : QueueState :=
  let t1 : Task := { task with
    retry_count := task.retry_count + 1
    status := .retry
    error := none }
  let q1 := s.queues task.priority ++ [task.task_id]
  { s with
    queues := updQueue s.queues task.priority q1
    tasks := updMap s.tasks task.task_id t1 }

/-- TaskQueue.retry_task: while retry budget remains, re-enqueue with a
bumped retry_count and status RETRY; otherwise transition the task to
FAILED via update_task_status. -/
def retry_task (now : Nat) (task_id : String) (s : QueueState) :
    QueueState :=
  if is_available s = false then s
  else
    match get_task s task_id with
    | none => s
    | some task =>
      if task.retry_count < task.max_retries then retryState task s
      else update_task_status now task_id .failed none none s

/-- The state written by TaskScheduler.schedule_task when the queue is
available: store the task blob (setex, TTL not modelled) and zadd the id
to the scheduled sorted set with the execute-at timestamp as score. -/
def schedState (task : Task) (execute_at : Nat) (s : QueueState) :
    QueueState :=
  { s with
    tasks := updMap s.tasks task.task_id task
    scheduled := zadd s.scheduled task.task_id execute_at }

/-- TaskScheduler.schedule_task: raises RuntimeError when the queue is
unavailable; otherwise stores the blob and schedules the id. -/
def schedule_task (task : Task) (execute_at : Nat) (s : QueueState) :
    Except String (String × QueueState) :=
  if is_available s = false then .error "Task queue not available"
  else .ok (task.task_id, schedState task execute_at s)

/-- TaskScheduler.schedule_task_in: schedule at now plus the delay. -/
def schedule_task_in (task : Task) (delay_seconds : Nat) (now : Nat)
    (s : QueueState) : Except String (String × QueueState) :=
  schedule_task task (now + delay_seconds) s

/-- The loop body of TaskScheduler.check_and_submit_due_tasks: for each due
id, submit the blob if it still exists (counting it), then zrem the id in
either case. The queue stays available throughout, so submit_task cannot
raise here; the error branch is written defensively and unreachable. -/
def promoteDue : List String → Nat → QueueState → Nat × QueueState
  | [], n, s => (n, s)
  | task_id :: rest, n, s =>
    match get_task s task_id with
    | some task =>
      match submit_task task s with
      | .ok (_, s1) =>
        promoteDue rest (n + 1) { s1 with scheduled := zrem s1.scheduled task_id }
      | .error _ =>
        promoteDue rest n { s with scheduled := zrem s.scheduled task_id }
    | none =>
      promoteDue rest n { s with scheduled := zrem s.scheduled task_id }

/-- TaskScheduler.check_and_submit_due_tasks: 0 when unavailable; otherwise
reads every scheduled entry with score at most now and promotes each into
the live queue, returning the number submitted. -/
def check_and_submit_due_tasks (now : Nat) (s : QueueState) :
    Nat × QueueState :=
  if is_available s = false then (0, s)
  else promoteDue (zrangebyscore s.scheduled 0 now) 0 s

/-- Outcome of dispatching one task to its handler inside the worker:
either the handler's returned dictionary or the message of the exception
it raised (unknown task types raise too and land in the same branch). -/
inductive HandlerOutcome where
  | success (res : Json)
  | failure (err : String)

/-- TaskWorker._process_task (worker.py): mark the claimed task RUNNING
with this worker as owner, dispatch to the handler; on success save a
COMPLETED TaskResult and mark COMPLETED; on failure save a FAILED
TaskResult, then retry if the in-hand task still has budget, else mark
FAILED with the error. Wall-clock duration is not modelled (0). -/
def process_task (now : Nat) (worker_id : String) (task : Task)
    (outcome : HandlerOutcome) (s : QueueState) : QueueState :=
  let s1 := update_task_status now task.task_id .running (some worker_id)
    none s
  match outcome with
  | .success res =>
    let tr : TaskResult :=
      { task_id := task.task_id
        status := .completed
        result := some res
        error := none
        duration := 0
        worker_id := some worker_id
        completed_at := now
        metadata := [] }
    let s2 := save_result task.task_id tr s1
    update_task_status now task.task_id .completed none none s2
  | .failure err =>
    let tr : TaskResult :=
      { task_id := task.task_id
        status := .failed
        result := none
        error := some err
        duration := 0
        worker_id := some worker_id
        completed_at := now
        metadata := [] }
    let s2 := save_result task.task_id tr s1
    if task.retry_count < task.max_retries then
      retry_task now task.task_id s2
    else
      update_task_status now task.task_id .failed none (some err) s2

/-- One iteration of the worker loop in which the dispatched handler fails:
claim the next task and process it with a failing outcome; when no task is
claimable the loop just sleeps, leaving the state as returned. -/
def attemptFail (now : Nat) (worker_id err : String) (s : QueueState) :
    QueueState :=
  match get_next_task s none with
  | (some t, s1) => process_task now worker_id t (.failure err) s1
  | (none, s1) => s1

/-- n worker iterations, every handler dispatch failing. -/
def runFails (now : Nat) (worker_id err : String) :
    Nat → QueueState → QueueState
  | 0, s => s
  | n + 1, s => attemptFail now worker_id err (runFails now worker_id err n s)

/-- A queue instance over an empty store; available says whether the
backing store is reachable and the queue enabled. -/
def emptyState (avail : Bool) : QueueState :=
  { tasks := fun _ => none
    queues := fun _ => []
    statusSets := fun _ => []
    results := fun _ => none
    scheduled := []
    available := avail }

/-- Extract the post-state of an operation that cannot fail in context. -/
def okState (r : Except String (String × QueueState)) (fallback : QueueState) :
    QueueState :=
  match r with
  | .ok (_, s) => s
  | .error _ => fallback

/-- AgentTask construction (task_models.py, AgentTask.__post_init__): the
only payload validation in the system; __post_init__ raises ValueError
when the payload lacks the query key, so a validated AgentTask value
exists only for payloads containing it. -/
def mkAgentTask (t : Task) : Except String Task :=
  if "query" ∈ t.payload.map Prod.fst then .ok t
  else .error "AgentTask requires query in payload"

@[simp] theorem updMap_same {α : Type} (m : String → Option α) (k : String)
    (v : α) : updMap m k v k = some v := by
  simp [updMap]

@[simp] theorem updMap_other {α : Type} (m : String → Option α)
    {k x : String} (v : α) (h : x ≠ k) : updMap m k v x = m x := by
  simp [updMap, h]

@[simp] theorem updQueue_same (f : TaskPriority → List String)
    (p : TaskPriority) (l : List String) : updQueue f p l p = l := by
  simp [updQueue]

@[simp] theorem updQueue_other (f : TaskPriority → List String)
    {p q : TaskPriority} (l : List String) (h : q ≠ p) :
    updQueue f p l q = f q := by
  simp [updQueue, h]

@[simp] theorem updSet_same (f : TaskStatus → List String) (st : TaskStatus)
    (l : List String) : updSet f st l st = l := by
  simp [updSet]

@[simp] theorem updSet_other (f : TaskStatus → List String)
    {st x : TaskStatus} (l : List String) (h : x ≠ st) :
    updSet f st l x = f x := by
  simp [updSet, h]

theorem mem_sadd_self (l : List String) (x : String) : x ∈ sadd l x := by
  by_cases h : x ∈ l <;> simp [sadd, h]

theorem mem_sadd_iff (l : List String) (x y : String) :
    y ∈ sadd l x ↔ y ∈ l ∨ y = x := by
  by_cases h : x ∈ l <;> simp [sadd, h]
  intro hy
  rw [hy]
  exact h

theorem not_mem_lremAll (l : List String) (x : String) :
    x ∉ lremAll l x := by
  simp [lremAll]

theorem not_mem_srem_of_nodup {l : List String} (h : l.Nodup) (x : String) :
    x ∉ srem l x := by
  simpa [srem] using h.not_mem_erase

/-- A representative freshly constructed agent-query task. -/
def baseTask : Task :=
  { task_id := "t1"
    task_type := .agent_query
    payload := [("query", Json.str "What is RAG?")]
    priority := .normal
    status := .pending
    max_retries := 3
    retry_count := 0
    retry_delay := 60
    created_at := 1700000000000000
    started_at := none
    completed_at := none
    worker_id := none
    result := none
    error := none
    user_id := none
    session_id := none
    metadata := [] }

/-- A representative successful task result. -/
def exampleResult : TaskResult :=
  { task_id := "t1"
    status := .completed
    result := some (Json.str "4")
    error := none
    duration := 0
    worker_id := some "w1"
    completed_at := 1700000000000001
    metadata := [] }

/-- C9: for every Task, deserializing its serialized form (from_dict of
to_dict, across the JSON transport of the dictionary) reproduces the
original Task exactly: same id, type, payload, priority, status, retry
fields, and timestamps (exactly, hence in particular to the second). -/
theorem c9_serialization_round_trip (t : Task) :
    Task.from_dict (Task.to_dict t) = some t := by
  cases t with
  | mk id tt payload pr st mr rc rd ca sa co wid res err uid sid md =>
    simp only [Task.to_dict, Task.from_dict, taskType_ofValue_value,
      taskPriority_ofValue_value, taskStatus_ofValue_value,
      fromisoformat_isoformat]
    cases sa <;> cases co <;>
      simp [parseOptTime, fromisoformat_isoformat]

/-- C2 (counterexample): with the queue unavailable, submit_task is not a
raise-free no-op: it raises RuntimeError to the caller. -/
theorem c2_unavailable_submit_raises_counterexample :
    submit_task baseTask (emptyState false) =
      .error "Task queue not available" := rfl

/-- C2 (amended): when the queue is unavailable, update_task_status,
save_result, cancel_task, retry_task and the scheduler promotion loop are
no-ops and the reads return empty or absent, but submit_task and
schedule_task instead raise RuntimeError to the caller. -/
theorem c2_unavailable_degrades (s : QueueState)
    (h : is_available s = false) (now : Nat) (tid : String)
    (st : TaskStatus) (w e : Option String) (res : TaskResult) (task : Task)
    (pr : Option (List TaskPriority)) (t1 : Nat) :
    update_task_status now tid st w e s = s ∧
    save_result tid res s = s ∧
    cancel_task now tid s = s ∧
    retry_task now tid s = s ∧
    get_next_task s pr = (none, s) ∧
    get_task s tid = none ∧
    get_result s tid = none ∧
    check_and_submit_due_tasks now s = (0, s) ∧
    submit_task task s = .error "Task queue not available" ∧
    schedule_task task t1 s = .error "Task queue not available" := by
  refine ⟨?_, ?_, ?_, ?_, ?_, ?_, ?_, ?_, ?_, ?_⟩ <;>
    simp [update_task_status, save_result, cancel_task, retry_task,
      get_next_task, get_task, get_result, check_and_submit_due_tasks,
      submit_task, schedule_task, h]

/-- Witness for the amended C2 at a concrete unavailable queue. -/
theorem c2_unavailable_degrades_witness :
    update_task_status 0 "t1" .running none none (emptyState false) =
      emptyState false ∧
    get_task (emptyState false) "t1" = none ∧
    submit_task baseTask (emptyState false) =
      .error "Task queue not available" := by
  have h := c2_unavailable_degrades (emptyState false) rfl 0 "t1" .running
    none none exampleResult baseTask none 0
  exact ⟨h.1, h.2.2.2.2.2.1, h.2.2.2.2.2.2.2.2.1⟩

/-- A malformed submission: an AGENT_QUERY task with an empty payload. -/
def malformedTask : Task := { baseTask with task_id := "m", payload := [] }

/-- C3 (counterexample): submit_task accepts a task of type AGENT_QUERY
with an empty payload and enqueues it: the id is pushed onto the NORMAL
priority list and added to the PENDING status set, so malformed tasks are
not rejected at submit. -/
theorem c3_submit_skips_validation_counterexample :
    submit_task malformedTask (emptyState true) =
      .ok ("m", submitState malformedTask (emptyState true)) ∧
    "m" ∈ (submitState malformedTask (emptyState true)).queues .normal ∧
    "m" ∈ (submitState malformedTask (emptyState true)).statusSets
      .pending := by
  refine ⟨rfl, ?_, ?_⟩ <;> decide

/-- C3 (amended): the only payload validation is at AgentTask construction,
where a payload without the query key raises ValueError; submit_task never
validates the payload and enqueues any task it is handed, pushing its id
onto its priority list and into the PENDING status set. -/
theorem c3_validation_only_at_construction (t : Task) (s : QueueState)
    (hq : "query" ∉ t.payload.map Prod.fst) (hA : is_available s = true) :
    mkAgentTask t = .error "AgentTask requires query in payload" ∧
    submit_task t s = .ok (t.task_id, submitState t s) ∧
    t.task_id ∈ (submitState t s).queues t.priority ∧
    t.task_id ∈ (submitState t s).statusSets .pending := by
  refine ⟨by simp [mkAgentTask, hq], by simp [submit_task, hA], ?_, ?_⟩
  · simp [submitState]
  · simp [submitState, mem_sadd_self]

/-- Witness for the amended C3 at the concrete malformed task. -/
theorem c3_validation_only_at_construction_witness :
    mkAgentTask malformedTask =
      .error "AgentTask requires query in payload" ∧
    "m" ∈ (submitState malformedTask (emptyState true)).queues .normal := by
  have h := c3_validation_only_at_construction malformedTask
    (emptyState true) (by decide) rfl
  exact ⟨h.1, h.2.2.1⟩

/-- A task submitted while already carrying the RUNNING status. -/
def runningTask : Task := { baseTask with task_id := "r", status := .running }

/-- C8 (counterexample): submit_task stores the task verbatim, so a task
whose status field is RUNNING at submission is read back with status
RUNNING, not PENDING. -/
theorem c8_submit_keeps_status_counterexample :
    (get_task (submitState runningTask (emptyState true)) "r").map
      Task.status = some .running ∧
    (get_task (submitState runningTask (emptyState true)) "r").map
      Task.status ≠ some .pending := by
  exact ⟨rfl, by decide⟩

/-- C8 (amended): for every task whose status field is PENDING (the
dataclass default at construction), immediately after submit_task and
before any worker runs, get_task returns the task with status PENDING. -/
theorem c8_submission_visibility (t : Task) (s : QueueState)
    (hA : is_available s = true) (hst : t.status = .pending) :
    submit_task t s = .ok (t.task_id, submitState t s) ∧
    get_task (submitState t s) t.task_id = some t ∧
    (get_task (submitState t s) t.task_id).map Task.status =
      some .pending := by
  have hget : get_task (submitState t s) t.task_id = some t := by
    simp [get_task, submitState, is_available] at *
    simp [hA]
  exact ⟨by simp [submit_task, hA], hget, by simp [hget, hst]⟩

/-- Witness for the amended C8 at the concrete base task. -/
theorem c8_submission_visibility_witness :
    get_task (submitState baseTask (emptyState true)) "t1" =
      some baseTask := by
  exact (c8_submission_visibility baseTask (emptyState true) rfl rfl).2.1

/-- C10: when get_next_task pops an id from the URGENT list whose blob is
gone (e.g. TTL-expired), it returns none without scanning lower-priority
lists even though a live NORMAL task is available, and the popped id is
left in no priority list: the task is silently dropped, not re-queued. -/
theorem c10_stale_head_drops_task (s : QueueState) (sid tid : String)
    (tl : List String) (task : Task) (hA : is_available s = true)
    (hu : s.queues .urgent = [sid]) (hmiss : s.tasks sid = none)
    (hn : s.queues .normal = tid :: tl) (_hlive : s.tasks tid = some task)
    (hh : sid ∉ s.queues .high) (hnm : sid ∉ s.queues .normal)
    (hl : sid ∉ s.queues .low) :
    (get_next_task s none).1 = none ∧
    ((get_next_task s none).2).queues .urgent = [] ∧
    ((get_next_task s none).2).queues .normal = tid :: tl ∧
    ((get_next_task s none).2).tasks = s.tasks ∧
    ∀ p, sid ∉ ((get_next_task s none).2).queues p := by
  have hpop : get_next_task s none =
      (get_task { s with queues := updQueue s.queues .urgent [] } sid,
       { s with queues := updQueue s.queues .urgent [] }) := by
    simp [get_next_task, tryPriorities, hA, hu]
  rw [hpop]
  refine ⟨?_, ?_, ?_, rfl, ?_⟩
  · simp [get_task, is_available, hA, hmiss]
  · simp
  · simp [hn]
  · intro p
    cases p <;> simp [hh, hnm, hl]

/-- Concrete store for the C10 witness: a stale id heads the URGENT list
while a live task waits in the NORMAL list. -/
def c10State : QueueState :=
  { tasks := fun x => if x = "live" then some baseTask else none
    queues := fun p =>
      match p with
      | .urgent => ["stale"]
      | .normal => ["live"]
      | _ => []
    statusSets := fun _ => []
    results := fun _ => none
    scheduled := []
    available := true }

/-- Witness for C10 at the concrete store. -/
theorem c10_stale_head_drops_task_witness :
    (get_next_task c10State none).1 = none ∧
    ((get_next_task c10State none).2).queues .urgent = [] ∧
    "stale" ∉ ((get_next_task c10State none).2).queues .normal := by
  have h := c10_stale_head_drops_task c10State "stale" "live" [] baseTask
    rfl rfl rfl rfl rfl (by decide) (by decide) (by decide)
  exact ⟨h.1, h.2.1, h.2.2.2.2 .normal⟩

/-- When every strictly higher priority list is empty and the list for p
has a head, get_next_task pops that head and looks it up: the blocking
pops on the higher lists time out and the scan stops at p. -/
theorem get_next_task_pop (s : QueueState) (p : TaskPriority) (tid : String)
    (tl : List String) (hA : is_available s = true)
    (hearlier : ∀ q : TaskPriority, p.value < q.value → s.queues q = [])
    (hq : s.queues p = tid :: tl) :
    get_next_task s none =
      (get_task { s with queues := updQueue s.queues p tl } tid,
       { s with queues := updQueue s.queues p tl }) := by
  cases p
  case low =>
    have h1 := hearlier .urgent (by decide)
    have h2 := hearlier .high (by decide)
    have h3 := hearlier .normal (by decide)
    simp [get_next_task, tryPriorities, hA, h1, h2, h3, hq]
  case normal =>
    have h1 := hearlier .urgent (by decide)
    have h2 := hearlier .high (by decide)
    simp [get_next_task, tryPriorities, hA, h1, h2, hq]
  case high =>
    have h1 := hearlier .urgent (by decide)
    simp [get_next_task, tryPriorities, hA, h1, hq]
  case urgent =>
    simp [get_next_task, tryPriorities, hA, hq]

/-- The three tasks of the P2 scenario, submitted in the order LOW,
URGENT, NORMAL. -/
def tLowTask : Task := { baseTask with task_id := "a", priority := .low }

/-- The URGENT task of the P2 scenario. -/
def tUrgentTask : Task :=
  { baseTask with task_id := "b", priority := .urgent }

/-- The NORMAL task of the P2 scenario. -/
def tNormalTask : Task :=
  { baseTask with task_id := "c", priority := .normal }

/-- The queue after submitting the scenario tasks in order LOW, URGENT,
NORMAL to a fresh available queue. -/
def c4s : QueueState :=
  okState (submit_task tNormalTask
    (okState (submit_task tUrgentTask
      (okState (submit_task tLowTask (emptyState true)) (emptyState true)))
      (emptyState true)))
    (emptyState true)

/-- C4: get_next_task scans the priority lists in order URGENT, HIGH,
NORMAL, LOW and within one level serves ids in FIFO submission order
(submit appends to the tail, the scan pops the head); in particular after
submitting LOW, URGENT, NORMAL tasks in that order, three successive
get_next_task calls return the URGENT, then the NORMAL, then the LOW
task. -/
theorem c4_priority_ordering :
    (∀ (s : QueueState) (p : TaskPriority) (tid : String)
      (tl : List String) (task : Task), is_available s = true →
      (∀ q : TaskPriority, p.value < q.value → s.queues q = []) →
      s.queues p = tid :: tl → s.tasks tid = some task →
      get_next_task s none =
        (some task, { s with queues := updQueue s.queues p tl })) ∧
    (∀ (t : Task) (s : QueueState),
      (submitState t s).queues t.priority =
        s.queues t.priority ++ [t.task_id]) ∧
    ((get_next_task c4s none).1 = some tUrgentTask ∧
     (get_next_task (get_next_task c4s none).2 none).1 = some tNormalTask ∧
     (get_next_task (get_next_task (get_next_task c4s none).2 none).2
       none).1 = some tLowTask) := by
  refine ⟨?_, ?_, rfl, rfl, rfl⟩
  · intro s p tid tl task hA hearlier hq htask
    have hA' : s.available = true := hA
    rw [get_next_task_pop s p tid tl hA hearlier hq]
    simp [get_task, is_available, hA', htask]
  · intro t s
    simp [submitState]

/-- Witness for C4 applying the general clause at a concrete one-task
queue. -/
theorem c4_priority_ordering_witness :
    get_next_task (submitState baseTask (emptyState true)) none =
      (some baseTask,
       { submitState baseTask (emptyState true) with
         queues := updQueue (submitState baseTask (emptyState true)).queues
           .normal [] }) := by
  exact c4_priority_ordering.1 (submitState baseTask (emptyState true))
    .normal "t1" [] baseTask rfl (by intro q h; revert h; cases q <;> decide)
    rfl rfl

/-- C6: cancel_task on a task stored as PENDING removes its id from its
priority list (and, the id being nowhere else, from every priority list,
so no later get_next_task can return it), rewrites the blob as CANCELLED,
and moves the id from the PENDING to the CANCELLED status set; on a task
in any other stored status it returns the state unchanged. -/
theorem c6_cancel_task (now : Nat) (s : QueueState) (tid : String)
    (task : Task) (hA : is_available s = true)
    (hT : s.tasks tid = some task) :
    (task.status ≠ .pending → cancel_task now tid s = s) ∧
    (task.status = .pending →
      (∀ q, q ≠ task.priority → tid ∉ s.queues q) →
      (s.statusSets .pending).Nodup →
      (∀ p, tid ∉ (cancel_task now tid s).queues p) ∧
      (cancel_task now tid s).tasks tid =
        some { task with status := .cancelled, completed_at := some now } ∧
      tid ∉ (cancel_task now tid s).statusSets .pending ∧
      tid ∈ (cancel_task now tid s).statusSets .cancelled) := by
  constructor
  · intro hne
    simp [cancel_task, get_task, hA, hT, hne]
  · intro hp honly hnd
    have hA' : s.available = true := hA
    have hcancel : cancel_task now tid s =
        updateStatusState now tid .cancelled none none task
          (lremState tid task.priority s) := by
      simp [cancel_task, get_task, hA', hT, hp, update_task_status,
        is_available, lremState]
    rw [hcancel]
    refine ⟨?_, ?_, ?_, ?_⟩
    · intro p
      by_cases hpp : p = task.priority
      · subst hpp
        simp [updateStatusState, lremState, not_mem_lremAll]
      · simp [updateStatusState, lremState, updQueue_other _ _ hpp]
        exact honly p hpp
    · simp [updateStatusState, lremState, apply_status_update, hp]
    · have hps : TaskStatus.pending ≠ TaskStatus.cancelled := by decide
      simp [updateStatusState, lremState, updSet_other _ _ hps, hp]
      exact not_mem_srem_of_nodup hnd tid
    · simp [updateStatusState, lremState, mem_sadd_self]

/-- Concrete store for the C6 witness: one PENDING task in the NORMAL
list, its id in the PENDING status set. -/
def c6State : QueueState :=
  { tasks := fun x => if x = "t1" then some baseTask else none
    queues := fun p => match p with | .normal => ["t1"] | _ => []
    statusSets := fun st => match st with | .pending => ["t1"] | _ => []
    results := fun _ => none
    scheduled := []
    available := true }

/-- Witness for C6 cancelling the concrete PENDING task. -/
theorem c6_cancel_task_witness :
    "t1" ∉ (cancel_task 7 "t1" c6State).queues .normal ∧
    (cancel_task 7 "t1" c6State).tasks "t1" =
      some { baseTask with status := .cancelled, completed_at := some 7 } ∧
    "t1" ∈ (cancel_task 7 "t1" c6State).statusSets .cancelled := by
  have h := (c6_cancel_task 7 c6State "t1" baseTask rfl rfl).2 rfl
    (by intro q hq; revert hq; cases q <;> decide) (by decide)
  exact ⟨h.1 .normal, h.2.1, h.2.2.2⟩

/-- C7: schedule_task_in at time tS with delay d records the id in the
scheduled sorted set with score tS + d; a promotion pass strictly before
that score submits nothing and leaves the state untouched, and a pass at
or after it submits exactly that task into the live queue, removes the
entry, and returns 1. -/
theorem c7_schedule_then_promote (task : Task) (d tS tEarly tDue : Nat)
    (s : QueueState) (hA : is_available s = true)
    (hsch : s.scheduled = []) :
    schedule_task_in task d tS s =
      .ok (task.task_id, schedState task (tS + d) s) ∧
    (schedState task (tS + d) s).scheduled = [(task.task_id, tS + d)] ∧
    (tEarly < tS + d →
      check_and_submit_due_tasks tEarly (schedState task (tS + d) s) =
        (0, schedState task (tS + d) s)) ∧
    (tS + d ≤ tDue →
      (check_and_submit_due_tasks tDue (schedState task (tS + d) s)).1 =
        1 ∧
      ((check_and_submit_due_tasks tDue
        (schedState task (tS + d) s)).2).scheduled = [] ∧
      task.task_id ∈ ((check_and_submit_due_tasks tDue
        (schedState task (tS + d) s)).2).queues task.priority ∧
      task.task_id ∈ ((check_and_submit_due_tasks tDue
        (schedState task (tS + d) s)).2).statusSets .pending ∧
      ((check_and_submit_due_tasks tDue
        (schedState task (tS + d) s)).2).tasks task.task_id =
        some task) := by
  refine ⟨by simp [schedule_task_in, schedule_task, hA], ?_, ?_, ?_⟩
  · simp [schedState, hsch, zadd]
  · intro hlt
    have hnle : ¬ (tS + d ≤ tEarly) := by omega
    simp [check_and_submit_due_tasks, is_available, schedState, hA,
      zrangebyscore, hsch, zadd, hnle, promoteDue]
  · intro hle
    have hA' : s.available = true := hA
    have hrun : check_and_submit_due_tasks tDue (schedState task (tS + d) s)
        = (1, { submitState task (schedState task (tS + d) s) with
                scheduled := [] }) := by
      simp [check_and_submit_due_tasks, is_available, schedState, hA',
        zrangebyscore, hsch, zadd, hle, promoteDue, get_task, submit_task,
        zrem, submitState]
    rw [hrun]
    refine ⟨rfl, rfl, ?_, ?_, ?_⟩
    · simp [submitState, schedState]
    · simp [submitState, schedState, mem_sadd_self]
    · simp [submitState, schedState]

/-- Witness for C7 at the concrete base task and a fresh queue: scheduled
at time 100 with delay 5, promotion at 101 does nothing and promotion at
106 submits the task. -/
theorem c7_schedule_then_promote_witness :
    check_and_submit_due_tasks 101 (schedState baseTask 105
      (emptyState true)) = (0, schedState baseTask 105 (emptyState true)) ∧
    (check_and_submit_due_tasks 106 (schedState baseTask 105
      (emptyState true))).1 = 1 := by
  have h := c7_schedule_then_promote baseTask 5 100 101 106
    (emptyState true) rfl rfl
  exact ⟨h.2.2.1 (by omega), (h.2.2.2 (by omega)).1⟩

theorem update_task_status_found (now : Nat) (tid : String)
    (st : TaskStatus) (w e : Option String) (s : QueueState) (task : Task)
    (hA : s.available = true) (hT : s.tasks tid = some task) :
    update_task_status now tid st w e s =
      updateStatusState now tid st w e task s := by
  simp [update_task_status, get_task, is_available, hA, hT]

theorem save_result_found (tid : String) (res : TaskResult)
    (s : QueueState) (task : Task) (hA : s.available = true)
    (hT : s.tasks tid = some task) :
    save_result tid res s = saveResultState tid res task s := by
  simp [save_result, get_task, is_available, hA, hT]

theorem retry_task_budget (now : Nat) (tid : String) (s : QueueState)
    (task : Task) (hA : s.available = true) (hT : s.tasks tid = some task)
    (hlt : task.retry_count < task.max_retries) :
    retry_task now tid s = retryState task s := by
  simp [retry_task, get_task, is_available, hA, hT, hlt]

theorem retry_task_exhausted (now : Nat) (tid : String) (s : QueueState)
    (task : Task) (hA : s.available = true) (hT : s.tasks tid = some task)
    (hge : ¬ task.retry_count < task.max_retries) :
    retry_task now tid s = update_task_status now tid .failed none none s := by
  simp [retry_task, get_task, is_available, hA, hT, hge]

@[simp] theorem updateStatusState_available (now : Nat) (tid : String)
    (st : TaskStatus) (w e : Option String) (task : Task) (s : QueueState) :
    (updateStatusState now tid st w e task s).available = s.available := rfl

@[simp] theorem updateStatusState_queues (now : Nat) (tid : String)
    (st : TaskStatus) (w e : Option String) (task : Task) (s : QueueState) :
    (updateStatusState now tid st w e task s).queues = s.queues := rfl

@[simp] theorem updateStatusState_tasks_self (now : Nat) (tid : String)
    (st : TaskStatus) (w e : Option String) (task : Task) (s : QueueState) :
    (updateStatusState now tid st w e task s).tasks tid =
      some (apply_status_update now st w e task) := by
  simp [updateStatusState]

@[simp] theorem saveResultState_available (tid : String) (res : TaskResult)
    (task : Task) (s : QueueState) :
    (saveResultState tid res task s).available = s.available := rfl

@[simp] theorem saveResultState_queues (tid : String) (res : TaskResult)
    (task : Task) (s : QueueState) :
    (saveResultState tid res task s).queues = s.queues := rfl

theorem saveResultState_tasks_self (tid : String) (res : TaskResult)
    (task : Task) (s : QueueState) :
    (saveResultState tid res task s).tasks tid =
      some { task with
        result := res.result
        error := res.error
        status := res.status
        completed_at := some res.completed_at } := by
  simp [saveResultState]

@[simp] theorem retryState_available (task : Task) (s : QueueState) :
    (retryState task s).available = s.available := rfl

theorem retryState_tasks_self (task : Task) (s : QueueState) :
    (retryState task s).tasks task.task_id =
      some { task with
        retry_count := task.retry_count + 1
        status := .retry
        error := none } := by
  simp [retryState]

theorem retryState_queues_self (task : Task) (s : QueueState) :
    (retryState task s).queues task.priority =
      s.queues task.priority ++ [task.task_id] := by
  simp [retryState]

theorem retryState_queues_other (task : Task) (s : QueueState)
    {q : TaskPriority} (h : q ≠ task.priority) :
    (retryState task s).queues q = s.queues q := by
  simp [retryState, updQueue_other _ _ h]

/-- The stored task blob reached after k failing attempts on a freshly
submitted base task: every non-terminal attempt increments retry_count,
leaves the task with status RETRY, no error, the worker as owner, and the
RUNNING and save_result timestamps of that attempt. -/
def blobAfter (base : Task) (now : Nat) (wid : String) : Nat → Task
  | 0 => base
  | k + 1 =>
    { base with
      retry_count := k + 1
      status := .retry
      error := none
      worker_id := some wid
      started_at := some now
      completed_at := some now
      result := none }

theorem blobAfter_task_id (base : Task) (now : Nat) (wid : String)
    (k : Nat) : (blobAfter base now wid k).task_id = base.task_id := by
  cases k <;> rfl

theorem blobAfter_priority (base : Task) (now : Nat) (wid : String)
    (k : Nat) : (blobAfter base now wid k).priority = base.priority := by
  cases k <;> rfl

theorem blobAfter_max_retries (base : Task) (now : Nat) (wid : String)
    (k : Nat) : (blobAfter base now wid k).max_retries = base.max_retries := by
  cases k <;> rfl

theorem blobAfter_retry_count (base : Task) (now : Nat) (wid : String)
    (k : Nat) (hr0 : base.retry_count = 0) :
    (blobAfter base now wid k).retry_count = k := by
  cases k <;> simp [blobAfter, hr0]

/-- Inductive invariant for the repeated-failure run: the queue is
available, the blob after k failing attempts is stored under the base id,
which waits alone in its original priority list, all other lists empty. -/
def C5Inv (base : Task) (now : Nat) (wid : String) (k : Nat)
    (s : QueueState) : Prop :=
  s.available = true ∧
  s.tasks base.task_id = some (blobAfter base now wid k) ∧
  s.queues base.priority = [base.task_id] ∧
  ∀ q, q ≠ base.priority → s.queues q = []

/-- The store state after blpop removed the head of the list for p. -/
def popState (s : QueueState) (p : TaskPriority) (tl : List String) :
    QueueState :=
  { s with queues := updQueue s.queues p tl }

@[simp] theorem popState_available (s : QueueState) (p : TaskPriority)
    (tl : List String) : (popState s p tl).available = s.available := rfl

@[simp] theorem popState_tasks (s : QueueState) (p : TaskPriority)
    (tl : List String) : (popState s p tl).tasks = s.tasks := rfl

theorem popState_queues_self (s : QueueState) (p : TaskPriority)
    (tl : List String) : (popState s p tl).queues p = tl := by
  simp [popState]

theorem popState_queues_other (s : QueueState) (p : TaskPriority)
    (tl : List String) {q : TaskPriority} (h : q ≠ p) :
    (popState s p tl).queues q = s.queues q := by
  simp [popState, updQueue_other _ _ h]

/-- One failing worker iteration from an invariant state: claim the lone
queued id, fail the handler, and re-enqueue through retry_task; the
invariant advances from k to k+1 recorded failures. -/
theorem attemptFail_step (base : Task) (now : Nat) (wid err : String)
    (k : Nat) (s : QueueState) (hr0 : base.retry_count = 0)
    (hk : k < base.max_retries) (hInv : C5Inv base now wid k s) :
    C5Inv base now wid (k + 1) (attemptFail now wid err s) := by
  obtain ⟨hA, hT, hQ, hO⟩ := hInv
  have hearlier : ∀ q : TaskPriority, base.priority.value < q.value →
      s.queues q = [] := by
    intro q hv
    refine hO q fun he => ?_
    rw [he] at hv
    exact lt_irrefl _ hv
  have hid := blobAfter_task_id base now wid k
  have hprio := blobAfter_priority base now wid k
  have hrc := blobAfter_retry_count base now wid k hr0
  have hmr := blobAfter_max_retries base now wid k
  have hpopA : (popState s base.priority []).available = true := hA
  have hpopT : (popState s base.priority []).tasks base.task_id =
      some (blobAfter base now wid k) := hT
  have hclaim : get_next_task s none =
      (some (blobAfter base now wid k), popState s base.priority []) := by
    have h := get_next_task_pop s base.priority base.task_id [] hA hearlier hQ
    rw [show ({ s with queues := updQueue s.queues base.priority [] } :
        QueueState) = popState s base.priority [] from rfl] at h
    rw [h, get_task, if_neg (by simp [is_available, hA]), hpopT]
  have h1 : attemptFail now wid err s =
      process_task now wid (blobAfter base now wid k) (.failure err)
        (popState s base.priority []) := by
    unfold attemptFail
    rw [hclaim]
  rw [h1]
  clear h1 hclaim hpopA hpopT hid hprio hrc hmr hearlier
  cases k with
  | zero =>
    simp only [blobAfter] at hT ⊢
    refine ⟨?_, ?_, ?_, ?_⟩
    · simp [process_task, update_task_status, save_result, retry_task,
        get_task, is_available, updateStatusState, saveResultState,
        retryState, apply_status_update, popState, hA, hT, hr0, hk]
    · simp [process_task, update_task_status, save_result, retry_task,
        get_task, is_available, updateStatusState, saveResultState,
        retryState, apply_status_update, popState, blobAfter, hA, hT,
        hr0, hk]
    · simp [process_task, update_task_status, save_result, retry_task,
        get_task, is_available, updateStatusState, saveResultState,
        retryState, apply_status_update, popState, hA, hT, hr0, hk]
    · intro q hq
      simp [process_task, update_task_status, save_result, retry_task,
        get_task, is_available, updateStatusState, saveResultState,
        retryState, apply_status_update, popState, hA, hT, hr0, hk,
        updQueue_other _ _ hq, hO q hq]
  | succ j =>
    simp only [blobAfter] at hT ⊢
    refine ⟨?_, ?_, ?_, ?_⟩
    · simp [process_task, update_task_status, save_result, retry_task,
        get_task, is_available, updateStatusState, saveResultState,
        retryState, apply_status_update, popState, hA, hT, hr0, hk]
    · simp [process_task, update_task_status, save_result, retry_task,
        get_task, is_available, updateStatusState, saveResultState,
        retryState, apply_status_update, popState, blobAfter, hA, hT,
        hr0, hk]
    · simp [process_task, update_task_status, save_result, retry_task,
        get_task, is_available, updateStatusState, saveResultState,
        retryState, apply_status_update, popState, hA, hT, hr0, hk]
    · intro q hq
      simp [process_task, update_task_status, save_result, retry_task,
        get_task, is_available, updateStatusState, saveResultState,
        retryState, apply_status_update, popState, hA, hT, hr0, hk,
        updQueue_other _ _ hq, hO q hq]

/-- The terminal blob of a task whose every attempt failed: FAILED, with
retry_count equal to its retry budget. -/
def finalFailedBlob (base : Task) (now : Nat) (wid err : String) : Task :=
  { base with
    retry_count := base.max_retries
    status := .failed
    error := some err
    worker_id := some wid
    started_at := some now
    completed_at := some now
    result := none }

/-- The exhausted attempt: from the invariant state with max_retries
recorded failures, one more failing attempt takes the worker's terminal
branch, leaving the blob FAILED and every priority list empty. -/
theorem attemptFail_exhausted (base : Task) (now : Nat) (wid err : String)
    (s : QueueState) (hr0 : base.retry_count = 0)
    (hInv : C5Inv base now wid base.max_retries s) :
    (attemptFail now wid err s).available = true ∧
    (attemptFail now wid err s).tasks base.task_id =
      some (finalFailedBlob base now wid err) ∧
    ∀ q, (attemptFail now wid err s).queues q = [] := by
  obtain ⟨hA, hT, hQ, hO⟩ := hInv
  have hearlier : ∀ q : TaskPriority, base.priority.value < q.value →
      s.queues q = [] := by
    intro q hv
    refine hO q fun he => ?_
    rw [he] at hv
    exact lt_irrefl _ hv
  have hpopT : (popState s base.priority []).tasks base.task_id =
      some (blobAfter base now wid base.max_retries) := hT
  have hclaim : get_next_task s none =
      (some (blobAfter base now wid base.max_retries),
       popState s base.priority []) := by
    have h := get_next_task_pop s base.priority base.task_id [] hA hearlier hQ
    rw [show ({ s with queues := updQueue s.queues base.priority [] } :
        QueueState) = popState s base.priority [] from rfl] at h
    rw [h, get_task, if_neg (by simp [is_available, hA]), hpopT]
  have h1 : attemptFail now wid err s =
      process_task now wid (blobAfter base now wid base.max_retries)
        (.failure err) (popState s base.priority []) := by
    unfold attemptFail
    rw [hclaim]
  rw [h1]
  clear h1 hclaim hpopT hearlier
  cases hm : base.max_retries with
  | zero =>
    rw [hm] at hT
    simp only [blobAfter] at hT ⊢
    refine ⟨?_, ?_, ?_⟩
    · simp [process_task, update_task_status, save_result, retry_task,
        get_task, is_available, updateStatusState, saveResultState,
        apply_status_update, popState, hA, hT, hm, hr0]
    · simp [process_task, update_task_status, save_result, retry_task,
        get_task, is_available, updateStatusState, saveResultState,
        apply_status_update, popState, finalFailedBlob, hA, hT, hm, hr0]
    · intro q
      by_cases hq : q = base.priority
      · subst hq
        simp [process_task, update_task_status, save_result, retry_task,
          get_task, is_available, updateStatusState, saveResultState,
          apply_status_update, popState, hA, hT, hm, hr0]
      · simp [process_task, update_task_status, save_result, retry_task,
          get_task, is_available, updateStatusState, saveResultState,
          apply_status_update, popState, hA, hT, hm, hr0,
          updQueue_other _ _ hq, hO q hq]
  | succ j =>
    rw [hm] at hT
    simp only [blobAfter] at hT ⊢
    refine ⟨?_, ?_, ?_⟩
    · simp [process_task, update_task_status, save_result, retry_task,
        get_task, is_available, updateStatusState, saveResultState,
        apply_status_update, popState, hA, hT, hm, hr0]
    · simp [process_task, update_task_status, save_result, retry_task,
        get_task, is_available, updateStatusState, saveResultState,
        apply_status_update, popState, finalFailedBlob, hA, hT, hm, hr0]
    · intro q
      by_cases hq : q = base.priority
      · subst hq
        simp [process_task, update_task_status, save_result, retry_task,
          get_task, is_available, updateStatusState, saveResultState,
          apply_status_update, popState, hA, hT, hm, hr0]
      · simp [process_task, update_task_status, save_result, retry_task,
          get_task, is_available, updateStatusState, saveResultState,
          apply_status_update, popState, hA, hT, hm, hr0,
          updQueue_other _ _ hq, hO q hq]

/-- When every priority list is empty, the worker iteration claims nothing
and leaves the state untouched. -/
theorem attemptFail_fixed (now : Nat) (wid err : String) (s : QueueState)
    (hA : s.available = true) (hempty : ∀ q, s.queues q = []) :
    attemptFail now wid err s = s := by
  have hnone : get_next_task s none = (none, s) := by
    simp [get_next_task, tryPriorities, is_available, hA, hempty]
  simp [attemptFail, hnone]

/-- C5: a freshly submitted task whose every attempt fails ends terminally
FAILED with retry_count equal to max_retries after max_retries + 1
attempts (so max_retries retries), is no longer queued anywhere, and no
further worker iteration changes the state, so it is never retried a
further time. -/
theorem c5_retry_bound (base : Task) (now : Nat) (wid err : String)
    (s0 : QueueState) (hA : s0.available = true)
    (hr0 : base.retry_count = 0) (hq0 : ∀ p, s0.queues p = []) :
    (runFails now wid err (base.max_retries + 1)
        (okState (submit_task base s0) s0)).tasks base.task_id =
      some (finalFailedBlob base now wid err) ∧
    (finalFailedBlob base now wid err).retry_count = base.max_retries ∧
    (finalFailedBlob base now wid err).status = .failed ∧
    (∀ p, (runFails now wid err (base.max_retries + 1)
        (okState (submit_task base s0) s0)).queues p = []) ∧
    ∀ n, runFails now wid err n (runFails now wid err
        (base.max_retries + 1) (okState (submit_task base s0) s0)) =
      runFails now wid err (base.max_retries + 1)
        (okState (submit_task base s0) s0) := by
  have hsub : okState (submit_task base s0) s0 = submitState base s0 := by
    simp [submit_task, is_available, hA, okState]
  rw [hsub]
  have hinv0 : C5Inv base now wid 0 (submitState base s0) := by
    refine ⟨hA, ?_, ?_, ?_⟩
    · simp [submitState, blobAfter]
    · simp [submitState, hq0]
    · intro q hq
      simp [submitState, updQueue_other _ _ hq, hq0]
  have hinv : ∀ k, k ≤ base.max_retries →
      C5Inv base now wid k (runFails now wid err k (submitState base s0)) := by
    intro k
    induction k with
    | zero => intro _; exact hinv0
    | succ j ih =>
      intro hle
      exact attemptFail_step base now wid err j _ hr0 (by omega)
        (ih (by omega))
  have hterm := attemptFail_exhausted base now wid err _ hr0
    (hinv base.max_retries le_rfl)
  have hfin : runFails now wid err (base.max_retries + 1)
      (submitState base s0) =
      attemptFail now wid err (runFails now wid err base.max_retries
        (submitState base s0)) := rfl
  refine ⟨?_, rfl, rfl, ?_, ?_⟩
  · rw [hfin]; exact hterm.2.1
  · rw [hfin]; exact hterm.2.2
  · have hfix : attemptFail now wid err (runFails now wid err
        (base.max_retries + 1) (submitState base s0)) =
        runFails now wid err (base.max_retries + 1) (submitState base s0) := by
      refine attemptFail_fixed now wid err _ ?_ ?_
      · rw [hfin]; exact hterm.1
      · rw [hfin]; exact hterm.2.2
    intro n
    induction n with
    | zero => rfl
    | succ j ih =>
      calc runFails now wid err (j + 1) (runFails now wid err
            (base.max_retries + 1) (submitState base s0))
          = attemptFail now wid err (runFails now wid err j
              (runFails now wid err (base.max_retries + 1)
                (submitState base s0))) := rfl
        _ = attemptFail now wid err (runFails now wid err
              (base.max_retries + 1) (submitState base s0)) := by rw [ih]
        _ = runFails now wid err (base.max_retries + 1)
              (submitState base s0) := hfix

/-- Witness for C5: the base task (max_retries = 3) failing on all four
attempts ends FAILED with retry_count 3 and an empty NORMAL list. -/
theorem c5_retry_bound_witness :
    (runFails 5 "w1" "boom" 4 (okState (submit_task baseTask
        (emptyState true)) (emptyState true))).tasks "t1" =
      some (finalFailedBlob baseTask 5 "w1" "boom") ∧
    (runFails 5 "w1" "boom" 4 (okState (submit_task baseTask
        (emptyState true)) (emptyState true))).queues .normal = [] := by
  have h := c5_retry_bound baseTask 5 "w1" "boom" (emptyState true) rfl rfl
    (fun _ => rfl)
  exact ⟨h.1, h.2.2.2.1 .normal⟩

/-- The claim step of the C1 scenario: submit the base task to a fresh
available queue and let a worker take it. -/
def c1Claim : Option Task × QueueState :=
  get_next_task (okState (submit_task baseTask (emptyState true))
    (emptyState true)) none

/-- The queue after the worker processes the claimed task successfully:
update to RUNNING, save the COMPLETED result, update to COMPLETED. -/
def c1BugState : QueueState :=
  process_task 5 "w1" (c1Claim.1.getD baseTask) (.success (Json.str "4"))
    c1Claim.2

/-- C1 (counterexample): on the reachable state produced by submit, claim
and successful processing, the task id belongs to BOTH the RUNNING and
the COMPLETED status sets (save_result rewrote the stored status to
COMPLETED without touching the sets, so the final update_task_status
removed the id from the COMPLETED set it was never in, leaving it in
RUNNING while adding it to COMPLETED): membership is not exclusive. -/
theorem c1_two_status_sets_counterexample :
    "t1" ∈ c1BugState.statusSets .running ∧
    "t1" ∈ c1BugState.statusSets .completed ∧
    (TaskStatus.all.filter
      (fun st => decide ("t1" ∈ c1BugState.statusSets st))).length = 2 := by
  refine ⟨?_, ?_, ?_⟩ <;> decide

/-- C1 (amended): update_task_status is the only operation that maintains
the status sets, and it does preserve exclusive membership: if the id
belongs to exactly the set of its stored status, then after
update_task_status it belongs to exactly the new status set. (save_result
and retry_task change the stored status without updating any status set,
which is what breaks exclusivity in the worker flow.) -/
theorem c1_update_status_preserves_exclusivity (s : QueueState) (now : Nat)
    (tid : String) (st : TaskStatus) (w e : Option String) (task : Task)
    (hA : s.available = true) (hT : s.tasks tid = some task)
    (hnd : (s.statusSets task.status).Nodup)
    (hexcl : ∀ x : TaskStatus, tid ∈ s.statusSets x ↔ x = task.status) :
    ∀ x : TaskStatus,
      tid ∈ (update_task_status now tid st w e s).statusSets x ↔ x = st := by
  intro x
  rw [update_task_status_found now tid st w e s task hA hT]
  by_cases hx : x = st
  · subst hx
    simp [updateStatusState, mem_sadd_self]
  · have hsets : (updateStatusState now tid st w e task s).statusSets x =
        updSet s.statusSets task.status
          (srem (s.statusSets task.status) tid) x := by
      simp [updateStatusState, updSet_other _ _ hx]
    rw [hsets]
    refine iff_of_false ?_ hx
    by_cases hxs : x = task.status
    · subst hxs
      rw [updSet_same]
      exact not_mem_srem_of_nodup hnd tid
    · rw [updSet_other _ _ hxs]
      intro hmem
      exact hxs ((hexcl x).mp hmem)

/-- Witness for the amended C1: updating the concrete PENDING task to
RUNNING puts its id in the RUNNING set and removes it from PENDING. -/
theorem c1_update_status_preserves_exclusivity_witness :
    "t1" ∈ (update_task_status 3 "t1" .running (some "w1") none
      c6State).statusSets .running ∧
    "t1" ∉ (update_task_status 3 "t1" .running (some "w1") none
      c6State).statusSets .pending := by
  have h := c1_update_status_preserves_exclusivity c6State 3 "t1" .running
    (some "w1") none baseTask rfl rfl (by decide)
    (by intro x; cases x <;> decide)
  refine ⟨(h .running).mpr rfl, fun hm => ?_⟩
  have hpr := (h .pending).mp hm
  exact absurd hpr (by decide)

end RagQueue
